import Mathlib

/-!
Verification of the Community-Crime-Reporting client against its
natural-language specification.

The development shallowly embeds the data model and the operations of the
source files:
* `src/IncidentReportForm.tsx` — the incident submission handler;
* `src/Supabase.ts` — the record types (status/severity enumerations);
* `src/HotspotMap.tsx` — hotspot severity classification and the dashboard
  statistics (the source file concatenates the HotspotMap and Dashboard
  components);
* `src/AlertPanel.tsx` — the alert read-flag operations;
* the neighbourhood-watch component — group creation/joining;
* the Severity Scorer, which is absent from the source tree and is modelled
  from the specification (section 4.3).

Modelling conventions: JavaScript numbers are embedded as `ℚ`; DOM text-input
state is a `String` where the empty string is the "missing" value tested by
JavaScript truthiness; a `type=number` input's state is an `Option ℚ` —
`none` for the empty string (falsy), `some q` for a non-empty numeric string
whose `parseFloat` is `q`.  Fallible operations return `Except`; a
backend insert performed by a handler is embedded as the inserted row value.

The file is organised as definitions first, then the theorems.
-/

namespace CrimeReport

namespace IncidentReportForm

/-- The React state of the incident report form (`useState` hooks of
`src/IncidentReportForm.tsx`, lines 30-38). -/
structure FormState where
  type : String
  description : String
  severity : String
  locationLat : Option ℚ
  locationLng : Option ℚ
  locationAddress : String
  incidentDate : String
deriving DecidableEq

/-- The row inserted into the `incidents` table by `handleSubmit`
(`src/IncidentReportForm.tsx`, lines 68-80). -/
structure InsertedIncident where
  reporter_id : String
  type : String
  description : String
  location_lat : ℚ
  location_lng : ℚ
  location_address : Option String
  severity : String
  timestamp : String
  status : String
deriving DecidableEq

/-- Embedding of `handleSubmit` (`src/IncidentReportForm.tsx`, lines 56-98).
The source guard is `if (!type || !description || !locationLat ||
!locationLng)` — JavaScript truthiness on the string state, i.e. rejection
exactly when one of those four strings is empty.  On the non-rejected path
the handler inserts the row with `parseFloat`-ed coordinates,
`location_address: locationAddress || null`, `timestamp: incidentDate` and
`status: 'pending'`.  No other validation is performed by the handler. -/
def handleSubmit (userId : String) (s : FormState) : Except String InsertedIncident :=
  match s.locationLat, s.locationLng with
  | some la, some ln =>
      if s.type = "" ∨ s.description = "" then
        Except.error "Please fill in all required fields."
      else
        Except.ok
          { reporter_id := userId
            type := s.type
            description := s.description
            location_lat := la
            location_lng := ln
            location_address := if s.locationAddress = "" then none else some s.locationAddress
            severity := s.severity
            timestamp := s.incidentDate
            status := "pending" }
  | _, _ => Except.error "Please fill in all required fields."

end IncidentReportForm

namespace Supabase

/-- The `Incident.status` union type of `src/Supabase.ts`, line 32:
`'pending' | 'verified' | 'reported_to_saps' | 'resolved'`. -/
inductive Status where
  | pending
  | verified
  | reported_to_saps
  | resolved
deriving DecidableEq

/-- The string literal of each `Status` member, as written in the union type. -/
def statusString : Status → String
  | .pending => "pending"
  | .verified => "verified"
  | .reported_to_saps => "reported_to_saps"
  | .resolved => "resolved"

/-- The four string literals of the `Incident.status` union type of
`src/Supabase.ts`, line 32, in source order. -/
def statusValues : List String :=
  ["pending", "verified", "reported_to_saps", "resolved"]

/-- The `Incident.severity` union type of `src/Supabase.ts`, line 33:
`'low' | 'medium' | 'high' | 'critical'`. -/
inductive Severity where
  | low
  | medium
  | high
  | critical
deriving DecidableEq

end Supabase

namespace Dashboard

open Supabase

/-- `getStatusColor` of the Dashboard component (`src/HotspotMap.tsx`
concatenation, lines 261-274): a pure switch on the status string. -/
def getStatusColor (status : String) : String :=
  if status = "resolved" then "bg-green-100 text-green-800"
  else if status = "reported_to_saps" then "bg-blue-100 text-blue-800"
  else if status = "verified" then "bg-purple-100 text-purple-800"
  else if status = "pending" then "bg-yellow-100 text-yellow-800"
  else "bg-gray-100 text-gray-800"

/-- The incident record fetched by the dashboard (`src/Supabase.ts`,
`Incident`).  `timestamp` is embedded as epoch milliseconds — the value of
`new Date(i.timestamp).getTime()` used in the dashboard's recency filter. -/
structure DBIncident where
  id : String
  reporter_id : String
  type : String
  description : String
  location_lat : ℚ
  location_lng : ℚ
  location_address : Option String
  status : Status
  severity : Severity
  timestamp : Int
deriving DecidableEq

/-- The `Stats` state of the Dashboard component (lines 186-191). -/
structure Stats where
  totalIncidents : Nat
  recentIncidents : Nat
  criticalIncidents : Nat
  resolvedIncidents : Nat
deriving DecidableEq

/-- The statistics computed by `fetchDashboardData` (`src/HotspotMap.tsx`
concatenation, lines 207-244) from the fetched incident list: `weekAgo` is
`now` minus 7 days in milliseconds; recent incidents have
`new Date(i.timestamp) >= weekAgo`; critical incidents have
`severity === 'critical' && status !== 'resolved'`; resolved incidents have
`status === 'resolved'`. -/
def fetchStats (now : Int) (allIncidents : List DBIncident) : Stats :=
  let weekAgo := now - 7 * 24 * 60 * 60 * 1000
  { totalIncidents := allIncidents.length
    recentIncidents := (allIncidents.filter (fun i => weekAgo ≤ i.timestamp)).length
    criticalIncidents :=
      (allIncidents.filter
        (fun i => i.severity = Severity.critical ∧ i.status ≠ Status.resolved)).length
    resolvedIncidents := (allIncidents.filter (fun i => i.status = Status.resolved)).length }

end Dashboard

namespace HotspotMap

/-- `getSeverityColor` of the HotspotMap component (`src/HotspotMap.tsx`,
lines 31-36). -/
def getSeverityColor (score : ℚ) : String :=
  if 8 ≤ score then "bg-red-500"
  else if 5 ≤ score then "bg-orange-500"
  else if 3 ≤ score then "bg-yellow-500"
  else "bg-green-500"

/-- `getSeverityLabel` of the HotspotMap component (`src/HotspotMap.tsx`,
lines 38-43). -/
def getSeverityLabel (score : ℚ) : String :=
  if 8 ≤ score then "Critical"
  else if 5 ≤ score then "High"
  else if 3 ≤ score then "Medium"
  else "Low"

end HotspotMap

namespace AlertPanel

/-- The `Alert` record of `src/Supabase.ts`, lines 51-61. -/
structure Alert where
  id : String
  user_id : String
  incident_id : Option String
  hotspot_id : Option String
  title : String
  message : String
  alert_type : String
  is_read : Bool
  created_at : String
deriving DecidableEq

/-- The local-state update performed by `markAsRead` (`src/AlertPanel.tsx`,
lines 61-76): `alerts.map(alert => alert.id === alertId ?
{ ...alert, is_read: true } : alert)`.  The matching backend update sets the
same single column on the same single row. -/
def markAsRead (alertId : String) (alerts : List Alert) : List Alert :=
  alerts.map (fun a => if a.id = alertId then { a with is_read := true } else a)

/-- The table update performed by `markAllAsRead` (`src/AlertPanel.tsx`,
lines 78-91): `update({ is_read: true })` on the rows with
`user_id = userId` and `is_read = false`, applied here to the list of a
user's alert rows. -/
def markAllAsRead (userId : String) (alerts : List Alert) : List Alert :=
  alerts.map (fun a =>
    if a.user_id = userId ∧ a.is_read = false then { a with is_read := true } else a)

end AlertPanel

namespace Scorer

open Supabase

/-- Modelled from the spec: the member incidents of a cluster, as consumed by
the Severity Scorer of specification section 4.3 (the scorer is absent from
`src/`; only its output table is read there).  `timestamp` is the event time
in days. -/
structure MemberIncident where
  id : String
  type : String
  severity : Severity
  timestamp : ℚ
deriving DecidableEq

/-- Modelled from the spec: `severityWeight` maps
`{low: 1, medium: 2, high: 4, critical: 8}` (specification section 4.3). -/
def severityWeight : Severity → ℚ
  | .low => 1
  | .medium => 2
  | .high => 4
  | .critical => 8

/-- Modelled from the spec: the weight of one member incident,
`severityWeight(severity) × recencyDecay(now − timestamp)` (specification
section 4.3).  The spec fixes `recencyDecay` to an exponential with a
configurable half-life floored at an epsilon; its exact shape is irrelevant
to the claims proved here, so the decay curve is taken as the parameter
`decay`. -/
def incidentWeight (decay : ℚ → ℚ) (now : ℚ) (m : MemberIncident) : ℚ :=
  severityWeight m.severity * decay (now - m.timestamp)

/-- Modelled from the spec: the summed weight of the members of one crime
type (specification section 4.3). -/
def typeWeight (decay : ℚ → ℚ) (now : ℚ) (members : List MemberIncident)
    (t : String) : ℚ :=
  ((members.filter (fun m => m.type = t)).map (incidentWeight decay now)).sum

/-- Modelled from the spec: the most recent event time among the members of
one crime type, used as the tie-break for the dominant type (specification
section 4.3). -/
def lastOccurrence (members : List MemberIncident) (t : String) : ℚ :=
  ((members.filter (fun m => m.type = t)).map (fun m => m.timestamp)).foldr max 0

/-- Modelled from the spec: `dominantType` is the crime type with the
highest summed weight among members, tie-broken by the most recent
occurrence (specification section 4.3); `none` for an empty member set. -/
def dominantType (decay : ℚ → ℚ) (now : ℚ) (members : List MemberIncident) :
    Option String :=
  (members.map (fun m => m.type)).eraseDups.foldl
    (fun best t =>
      match best with
      | none => some t
      | some b =>
          if typeWeight decay now members b < typeWeight decay now members t then some t
          else if typeWeight decay now members t = typeWeight decay now members b ∧
              lastOccurrence members b < lastOccurrence members t then some t
          else some b)
    none

/-- Modelled from the spec: `score(cluster) -> (score, dominantType)` — the
sum of member weights under a linear map capped at 10, paired with the
dominant type (specification section 4.3). -/
def score (decay : ℚ → ℚ) (now : ℚ) (members : List MemberIncident) :
    ℚ × Option String :=
  (min 10 ((members.map (incidentWeight decay now)).sum), dominantType decay now members)

/-- Modelled from the spec: the cluster (hotspot) record of specification
section 3, carrying the derived mutable fields alongside the member set. -/
structure Cluster where
  id : String
  centerLat : ℚ
  centerLng : ℚ
  members : List MemberIncident
  severityScore : ℚ
  dominantCrimeType : Option String
  lastUpdated : ℚ

/-- Modelled from the spec: scoring a cluster applies `score` to the
cluster's current member set (specification section 4.3). -/
def scoreCluster (decay : ℚ → ℚ) (now : ℚ) (c : Cluster) : ℚ × Option String :=
  score decay now c.members

/-- Modelled from the spec: the recomputation triggered by a membership
change stores the scorer's output in the cluster's derived fields
(specification section 4.3). -/
def recompute (decay : ℚ → ℚ) (now : ℚ) (c : Cluster) : Cluster :=
  let r := scoreCluster decay now c
  { c with severityScore := r.1, dominantCrimeType := r.2, lastUpdated := now }

end Scorer

namespace NeighbourhoodWatch

/-- The row inserted into `neighbourhood_watch_groups` by `handleCreateGroup`
(neighbourhood-watch component, lines 77-88).  Coordinates are embedded as
the `parseFloat`-ed values of the form's string state. -/
structure GroupInsert where
  name : String
  description : String
  location_lat : ℚ
  location_lng : ℚ
  coverage_radius_meters : Int
  created_by : String
deriving DecidableEq

/-- A row inserted into `group_members` (neighbourhood-watch component,
lines 92-98 and 118-124). -/
structure GroupMemberInsert where
  group_id : String
  user_id : String
  role : String
deriving DecidableEq

/-- The create-group form state (`formData`, lines 19-25), with the
coordinate strings embedded as their parsed values. -/
structure GroupFormData where
  name : String
  description : String
  location_lat : ℚ
  location_lng : ℚ
  coverage_radius_meters : Int
deriving DecidableEq

/-- Embedding of the happy path of `handleCreateGroup` (neighbourhood-watch
component, lines 73-114): insert the group row with `created_by = userId`,
then — with `newGroupId` the id the backend assigned to that row — insert a
`group_members` row for the creating user with role `'admin'`.  Backend
errors abort the sequence and are external to this embedding. -/
def handleCreateGroup (userId : String) (fd : GroupFormData) (newGroupId : String) :
    GroupInsert × GroupMemberInsert :=
  ({ name := fd.name
     description := fd.description
     location_lat := fd.location_lat
     location_lng := fd.location_lng
     coverage_radius_meters := fd.coverage_radius_meters
     created_by := userId },
   { group_id := newGroupId
     user_id := userId
     role := "admin" })

/-- Embedding of `handleJoinGroup` (neighbourhood-watch component, lines
116-131): insert a `group_members` row for the joining user with role
`'member'`. -/
def handleJoinGroup (userId : String) (groupId : String) : GroupMemberInsert :=
  { group_id := groupId
    user_id := userId
    role := "member" }

end NeighbourhoodWatch

/-! ## Theorems -/

open IncidentReportForm Supabase AlertPanel Scorer NeighbourhoodWatch

/-- Whenever `handleSubmit` succeeds, the inserted row is determined by the
form state: every field of the submission is passed through unchanged and the
status is `"pending"`. -/
theorem handleSubmit_ok_spec (userId : String) (s : FormState) (inc : InsertedIncident)
    (h : handleSubmit userId s = Except.ok inc) :
    inc.reporter_id = userId ∧ inc.type = s.type ∧ inc.description = s.description ∧
    inc.severity = s.severity ∧ inc.timestamp = s.incidentDate ∧ inc.status = "pending" ∧
    s.locationLat = some inc.location_lat ∧ s.locationLng = some inc.location_lng := by
  cases hla : s.locationLat with
  | none => simp [handleSubmit, hla] at h
  | some la =>
    cases hln : s.locationLng with
    | none => simp [handleSubmit, hla, hln] at h
    | some ln =>
      by_cases hb : s.type = "" ∨ s.description = ""
      · simp [handleSubmit, hla, hln, hb] at h
      · simp only [handleSubmit, hla, hln, hb, if_neg, ite_false, Except.ok.injEq] at h
        subst h
        simp

/-- Claim C1 counterexample: a submission whose latitude is 200 — outside
[-90, 90] — is not rejected by `handleSubmit`; the row is inserted with the
out-of-range coordinate unchanged. -/
theorem C1_counterexample :
    handleSubmit "user-1"
      { type := "Theft", description := "stolen bag", severity := "medium",
        locationLat := some 200, locationLng := some 0,
        locationAddress := "", incidentDate := "2026-01-01T12:00" } =
      Except.ok
        { reporter_id := "user-1", type := "Theft", description := "stolen bag",
          location_lat := 200, location_lng := 0, location_address := none,
          severity := "medium", timestamp := "2026-01-01T12:00", status := "pending" } ∧
    ¬ ((200 : ℚ) ≤ 90) := by
  refine ⟨rfl, by norm_num⟩

/-- Claim C1 (amended): `handleSubmit` performs no range check on the
coordinates.  Whenever the four checked fields are non-empty, the submission
is accepted and inserted with whatever latitude/longitude values were
supplied, in or out of [-90,90] × [-180,180]. -/
theorem C1_no_range_check (userId : String) (s : FormState) (la ln : ℚ)
    (hty : s.type ≠ "") (hd : s.description ≠ "")
    (hla : s.locationLat = some la) (hln : s.locationLng = some ln) :
    handleSubmit userId s = Except.ok
      { reporter_id := userId
        type := s.type
        description := s.description
        location_lat := la
        location_lng := ln
        location_address := if s.locationAddress = "" then none else some s.locationAddress
        severity := s.severity
        timestamp := s.incidentDate
        status := "pending" } := by
  simp [handleSubmit, hla, hln, hty, hd]

/-- Claim C1 witness: `C1_no_range_check` applied at a concrete submission
with latitude 200 and longitude -400. -/
theorem C1_witness :
    handleSubmit "u"
      { type := "Theft", description := "d", severity := "low",
        locationLat := some 200, locationLng := some (-400),
        locationAddress := "", incidentDate := "t" } =
      Except.ok
        { reporter_id := "u", type := "Theft", description := "d",
          location_lat := 200, location_lng := -400, location_address := none,
          severity := "low", timestamp := "t", status := "pending" } :=
  C1_no_range_check "u" _ 200 (-400) (by decide) (by decide) rfl rfl

/-- Claim C2 counterexample: a submission whose `severity` state and
`incidentDate` state are both the empty string (missing) is nevertheless
accepted and inserted — `handleSubmit` checks only `type`, `description`,
`locationLat` and `locationLng`. -/
theorem C2_counterexample :
    handleSubmit "u"
      { type := "Theft", description := "d", severity := "",
        locationLat := some 1, locationLng := some 2,
        locationAddress := "", incidentDate := "" } =
      Except.ok
        { reporter_id := "u", type := "Theft", description := "d",
          location_lat := 1, location_lng := 2, location_address := none,
          severity := "", timestamp := "", status := "pending" } := rfl

/-- Claim C2 (amended): `handleSubmit` rejects a submission if and only if
one of `type`, `description`, `locationLat`, `locationLng` is missing
(severity and timestamp are not checked; their form state has non-empty
defaults), and the rejection is an error return that produces no inserted
row. -/
theorem C2_rejection_iff (userId : String) (s : FormState) :
    (∃ msg, handleSubmit userId s = Except.error msg) ↔
      (s.type = "" ∨ s.description = "" ∨ s.locationLat = none ∨ s.locationLng = none) := by
  cases hla : s.locationLat <;> cases hln : s.locationLng <;>
    by_cases ht : s.type = "" <;> by_cases hd : s.description = "" <;>
      simp [handleSubmit, hla, hln, ht, hd]

/-- Claim C2 witness: `C2_rejection_iff` applied at a concrete submission
with an empty `type`. -/
theorem C2_witness :
    (∃ msg, handleSubmit "u"
      { type := "", description := "d", severity := "medium",
        locationLat := some 1, locationLng := some 2,
        locationAddress := "", incidentDate := "t" } = Except.error msg) ↔
      (("" : String) = "" ∨ ("d" : String) = "" ∨
        (some (1 : ℚ) = none) ∨ (some (2 : ℚ) = none)) :=
  C2_rejection_iff "u" _

/-- Claim C3 counterexample: a submission dated 9999-01-01, strictly after
the submission time 2026-10-11 in the ISO-8601 string order used by the
`datetime-local` input, is accepted by `handleSubmit` and stored with the
future timestamp unchanged. -/
theorem C3_counterexample :
    handleSubmit "u"
      { type := "Theft", description := "d", severity := "high",
        locationLat := some 1, locationLng := some 2,
        locationAddress := "", incidentDate := "9999-01-01T00:00" } =
      Except.ok
        { reporter_id := "u", type := "Theft", description := "d",
          location_lat := 1, location_lng := 2, location_address := none,
          severity := "high", timestamp := "9999-01-01T00:00", status := "pending" } ∧
    compare "2026-10-11T00:00" "9999-01-01T00:00" = Ordering.lt := by
  refine ⟨rfl, by decide⟩

/-- Claim C3 (amended): `handleSubmit` never compares the submitted
timestamp with the submission time; every accepted submission is stored with
`timestamp` equal to the form's `incidentDate` string, whatever it is.  The
only future-date guard in the source is the `max` attribute of the
`datetime-local` input, evaluated at render time outside the handler. -/
theorem C3_timestamp_passthrough (userId : String) (s : FormState) (inc : InsertedIncident)
    (h : handleSubmit userId s = Except.ok inc) :
    inc.timestamp = s.incidentDate :=
  (handleSubmit_ok_spec userId s inc h).2.2.2.2.1

/-- Claim C3 witness: `C3_timestamp_passthrough` applied at a concrete
accepted submission. -/
theorem C3_witness :
    handleSubmit "u"
      { type := "Theft", description := "d", severity := "low",
        locationLat := some 3, locationLng := some 4,
        locationAddress := "", incidentDate := "2020-05-05T05:05" } =
      Except.ok
        { reporter_id := "u", type := "Theft", description := "d",
          location_lat := 3, location_lng := 4, location_address := none,
          severity := "low", timestamp := "2020-05-05T05:05", status := "pending" } ∧
    ({ reporter_id := "u", type := "Theft", description := "d",
       location_lat := 3, location_lng := 4, location_address := none,
       severity := "low", timestamp := "2020-05-05T05:05",
       status := "pending" } : InsertedIncident).timestamp = "2020-05-05T05:05" :=
  ⟨rfl, C3_timestamp_passthrough "u"
    { type := "Theft", description := "d", severity := "low",
      locationLat := some 3, locationLng := some 4,
      locationAddress := "", incidentDate := "2020-05-05T05:05" } _ rfl⟩

/-- Claim C4: every submission that passes the handler's validation is
inserted with `status = "pending"`, and with the user-supplied type,
description, severity, coordinates and timestamp preserved unchanged. -/
theorem C4_insert_normalized (userId : String) (s : FormState) (inc : InsertedIncident)
    (h : handleSubmit userId s = Except.ok inc) :
    inc.status = "pending" ∧ inc.reporter_id = userId ∧ inc.type = s.type ∧
    inc.description = s.description ∧ inc.severity = s.severity ∧
    s.locationLat = some inc.location_lat ∧ s.locationLng = some inc.location_lng ∧
    inc.timestamp = s.incidentDate := by
  obtain ⟨h1, h2, h3, h4, h5, h6, h7, h8⟩ := handleSubmit_ok_spec userId s inc h
  exact ⟨h6, h1, h2, h3, h4, h7, h8, h5⟩

/-- Claim C4 witness: `C4_insert_normalized` applied at a concrete accepted
submission. -/
theorem C4_witness :
    handleSubmit "w"
      { type := "Assault", description := "de", severity := "critical",
        locationLat := some (-26), locationLng := some 28,
        locationAddress := "", incidentDate := "2024-02-02T02:02" } =
      Except.ok
        { reporter_id := "w", type := "Assault", description := "de",
          location_lat := -26, location_lng := 28, location_address := none,
          severity := "critical", timestamp := "2024-02-02T02:02", status := "pending" } ∧
    (({ reporter_id := "w", type := "Assault", description := "de",
        location_lat := -26, location_lng := 28, location_address := none,
        severity := "critical", timestamp := "2024-02-02T02:02",
        status := "pending" } : InsertedIncident).status = "pending" ∧
      ({ reporter_id := "w", type := "Assault", description := "de",
         location_lat := -26, location_lng := 28, location_address := none,
         severity := "critical", timestamp := "2024-02-02T02:02",
         status := "pending" } : InsertedIncident).type = "Assault") := by
  have hrun : handleSubmit "w"
      { type := "Assault", description := "de", severity := "critical",
        locationLat := some (-26), locationLng := some 28,
        locationAddress := "", incidentDate := "2024-02-02T02:02" } =
      Except.ok
        { reporter_id := "w", type := "Assault", description := "de",
          location_lat := -26, location_lng := 28, location_address := none,
          severity := "critical", timestamp := "2024-02-02T02:02", status := "pending" } := rfl
  have h4 := C4_insert_normalized "w" _ _ hrun
  exact ⟨hrun, h4.1, h4.2.2.1⟩

/-- Claim C5 counterexample: the status enumeration of `src/Supabase.ts`
contains `"reported_to_saps"`, not `"reported"`, so the claimed value set
{pending, verified, reported, resolved} is not the code's value set. -/
theorem C5_counterexample :
    ¬ ("reported" ∈ statusValues) ∧ "reported_to_saps" ∈ statusValues := by
  decide

/-- Claim C5 (amended): every incident status is one of exactly the four
values `pending`, `verified`, `reported_to_saps`, `resolved`, and the
reporting code reads the status purely — `getStatusColor` is a switch whose
default branch is unreachable for the enumeration's values and which never
writes an incident. -/
theorem C5_status_enum :
    (∀ st : Status, statusString st ∈ statusValues) ∧
    statusValues = [statusString .pending, statusString .verified,
      statusString .reported_to_saps, statusString .resolved] ∧
    (∀ st : Status,
      Dashboard.getStatusColor (statusString st) ≠ "bg-gray-100 text-gray-800") := by
  refine ⟨?_, rfl, ?_⟩
  · intro st
    cases st <;> decide
  · intro st
    cases st <;> decide

/-- Claim C6: `markAsRead` and `markAllAsRead` modify only the `is_read`
flag.  Pointwise along the alert list, every other field (id, user, incident
and hotspot references, title, message, alert type, creation time) is
unchanged; `markAsRead alertId` leaves every alert whose id differs from
`alertId` entirely identical, and `markAllAsRead userId` leaves every alert
of another user, or already read, entirely identical. -/
theorem C6_alert_frame (alertId userId : String) (alerts : List Alert) :
    List.Forall₂
      (fun a b =>
        b.id = a.id ∧ b.user_id = a.user_id ∧ b.incident_id = a.incident_id ∧
        b.hotspot_id = a.hotspot_id ∧ b.title = a.title ∧ b.message = a.message ∧
        b.alert_type = a.alert_type ∧ b.created_at = a.created_at ∧
        (a.id ≠ alertId → b = a) ∧ (a.id = alertId → b.is_read = true))
      alerts (markAsRead alertId alerts) ∧
    List.Forall₂
      (fun a b =>
        b.id = a.id ∧ b.user_id = a.user_id ∧ b.incident_id = a.incident_id ∧
        b.hotspot_id = a.hotspot_id ∧ b.title = a.title ∧ b.message = a.message ∧
        b.alert_type = a.alert_type ∧ b.created_at = a.created_at ∧
        ((a.user_id ≠ userId ∨ a.is_read = true) → b = a))
      alerts (markAllAsRead userId alerts) := by
  constructor
  · induction alerts with
    | nil => simp [markAsRead]
    | cons a t ih =>
      simp only [markAsRead, List.map_cons] at ih ⊢
      refine List.Forall₂.cons ?_ ih
      by_cases h : a.id = alertId
      · simp [h]
      · simp [h]
  · induction alerts with
    | nil => simp [markAllAsRead]
    | cons a t ih =>
      simp only [markAllAsRead, List.map_cons] at ih ⊢
      refine List.Forall₂.cons ?_ ih
      by_cases h : a.user_id = userId ∧ a.is_read = false
      · obtain ⟨h1, h2⟩ := h
        simp [h1, h2]
      · simp [h]

/-- Claim C7 (spec-modelled, the scorer is absent from `src/`): the cluster
score is a pure function of the current member set — two clusters with the
same members receive the same `(score, dominantType)` whatever their stored
derived fields hold, and recomputing a cluster's derived fields does not
change what `score` returns for it, so a second call without a membership
change yields identical output. -/
theorem C7_score_pure (decay : ℚ → ℚ) (now : ℚ) (c1 c2 : Cluster)
    (h : c1.members = c2.members) :
    scoreCluster decay now c1 = scoreCluster decay now c2 ∧
    scoreCluster decay now (recompute decay now c1) = scoreCluster decay now c1 := by
  constructor
  · simp [scoreCluster, h]
  · simp [scoreCluster, recompute]

/-- Claim C7 witness: `C7_score_pure` applied to two concrete clusters with
the same single member but different stored score, dominant type, centre and
update time. -/
theorem C7_witness :
    ({ id := "c1", centerLat := 0, centerLng := 0,
       members := [{ id := "i1", type := "Theft", severity := Severity.high,
                     timestamp := 0 }],
       severityScore := 0, dominantCrimeType := none, lastUpdated := 0 } : Cluster).members =
      ({ id := "c2", centerLat := 5, centerLng := 5,
         members := [{ id := "i1", type := "Theft", severity := Severity.high,
                       timestamp := 0 }],
         severityScore := 99, dominantCrimeType := some "Assault",
         lastUpdated := 7 } : Cluster).members ∧
    (scoreCluster (fun _ => 1) 10
        { id := "c1", centerLat := 0, centerLng := 0,
          members := [{ id := "i1", type := "Theft", severity := Severity.high,
                        timestamp := 0 }],
          severityScore := 0, dominantCrimeType := none, lastUpdated := 0 } =
      scoreCluster (fun _ => 1) 10
        { id := "c2", centerLat := 5, centerLng := 5,
          members := [{ id := "i1", type := "Theft", severity := Severity.high,
                        timestamp := 0 }],
          severityScore := 99, dominantCrimeType := some "Assault", lastUpdated := 7 } ∧
      scoreCluster (fun _ => 1) 10
          (recompute (fun _ => 1) 10
            { id := "c1", centerLat := 0, centerLng := 0,
              members := [{ id := "i1", type := "Theft", severity := Severity.high,
                            timestamp := 0 }],
              severityScore := 0, dominantCrimeType := none, lastUpdated := 0 }) =
        scoreCluster (fun _ => 1) 10
          { id := "c1", centerLat := 0, centerLng := 0,
            members := [{ id := "i1", type := "Theft", severity := Severity.high,
                          timestamp := 0 }],
            severityScore := 0, dominantCrimeType := none, lastUpdated := 0 }) :=
  ⟨rfl, C7_score_pure (fun _ => 1) 10 _ _ rfl⟩

/-- Two disjoint filters of one list together select at most the whole
list. -/
theorem length_filter_disjoint_le {α : Type} (p q : α → Bool)
    (hpq : ∀ x, p x = true → q x = true → False) (l : List α) :
    (l.filter p).length + (l.filter q).length ≤ l.length := by
  induction l with
  | nil => simp
  | cons a t ih =>
    by_cases hp : p a <;> by_cases hq : q a
    · exact ((hpq a hp hq).elim)
    · simp only [List.filter_cons, hp, hq]
      simp
      omega
    · simp only [List.filter_cons, hp, hq]
      simp
      omega
    · simp only [List.filter_cons, hp, hq]
      simp
      omega

/-- Claim C8: the dashboard statistics of `fetchDashboardData` satisfy
`recentIncidents ≤ totalIncidents`, `criticalIncidents ≤ totalIncidents`,
`resolvedIncidents ≤ totalIncidents`, and — because the critical-active
filter requires `status ≠ resolved`, making the two filtered sets disjoint —
`criticalIncidents + resolvedIncidents ≤ totalIncidents`, with
`totalIncidents` the length of the fetched list. -/
theorem C8_dashboard_stats (now : Int) (l : List Dashboard.DBIncident) :
    (Dashboard.fetchStats now l).totalIncidents = l.length ∧
    (Dashboard.fetchStats now l).recentIncidents ≤
      (Dashboard.fetchStats now l).totalIncidents ∧
    (Dashboard.fetchStats now l).criticalIncidents ≤
      (Dashboard.fetchStats now l).totalIncidents ∧
    (Dashboard.fetchStats now l).resolvedIncidents ≤
      (Dashboard.fetchStats now l).totalIncidents ∧
    (Dashboard.fetchStats now l).criticalIncidents +
        (Dashboard.fetchStats now l).resolvedIncidents ≤
      (Dashboard.fetchStats now l).totalIncidents := by
  simp only [Dashboard.fetchStats]
  refine ⟨by trivial, List.length_filter_le _ _, List.length_filter_le _ _,
    List.length_filter_le _ _, ?_⟩
  refine length_filter_disjoint_le _ _ ?_ l
  intro i h1 h2
  simp only [decide_eq_true_eq] at h1 h2
  exact h1.2 h2

/-- Claim C9: the hotspot severity classification is total and partitions
the scores: `getSeverityLabel s` is `"Critical"` iff `8 ≤ s`, `"High"` iff
`5 ≤ s < 8`, `"Medium"` iff `3 ≤ s < 5`, and `"Low"` otherwise (all
remaining scores, however far below 0), and `getSeverityColor` assigns its
colour by exactly the same thresholds. -/
theorem C9_severity_partition (s : ℚ) :
    (HotspotMap.getSeverityLabel s = "Critical" ↔ 8 ≤ s) ∧
    (HotspotMap.getSeverityLabel s = "High" ↔ 5 ≤ s ∧ s < 8) ∧
    (HotspotMap.getSeverityLabel s = "Medium" ↔ 3 ≤ s ∧ s < 5) ∧
    (HotspotMap.getSeverityLabel s = "Low" ↔ s < 3) ∧
    (HotspotMap.getSeverityColor s = "bg-red-500" ↔
      HotspotMap.getSeverityLabel s = "Critical") ∧
    (HotspotMap.getSeverityColor s = "bg-orange-500" ↔
      HotspotMap.getSeverityLabel s = "High") ∧
    (HotspotMap.getSeverityColor s = "bg-yellow-500" ↔
      HotspotMap.getSeverityLabel s = "Medium") ∧
    (HotspotMap.getSeverityColor s = "bg-green-500" ↔
      HotspotMap.getSeverityLabel s = "Low") := by
  unfold HotspotMap.getSeverityLabel HotspotMap.getSeverityColor
  split_ifs with h8 h5 h3 <;>
    refine ⟨?_, ?_, ?_, ?_, ?_, ?_, ?_, ?_⟩ <;>
    simp_all <;>
    intros <;>
    linarith

/-- Claim C10: creating a group inserts the creating user into the new group
with role `"admin"` (and records the creator on the group row), while
joining an existing group inserts the user with role `"member"`. -/
theorem C10_group_roles (userId : String) (fd : GroupFormData)
    (newGroupId groupId : String) :
    (handleCreateGroup userId fd newGroupId).2 =
      { group_id := newGroupId, user_id := userId, role := "admin" } ∧
    (handleCreateGroup userId fd newGroupId).1.created_by = userId ∧
    handleJoinGroup userId groupId =
      { group_id := groupId, user_id := userId, role := "member" } :=
  ⟨rfl, rfl, rfl⟩

end CrimeReport
